import Mathlib

/-!
# Verification of the agri-market ingestion script (`src/fetch_data.py`)

Shallow embedding of the single-variant script: resilient paginated fetch with
retry/backoff, JSON progress store, per-commodity pagination loop, date/price
cleaning with a trailing three-year window, filename normalization, and the
resume-safe main loop.  External effects (HTTP responses, the progress file's
parsed content, process environment) are passed in explicitly; machine-level
concerns do not arise (all arithmetic is on `Nat`/`Int`/`Rat`).
-/

/-! ## Configuration constants (source lines 10-23) -/

def LIMIT : Nat := 1000

def MAX_RETRIES : Nat := 5

def BACKOFF_BASE : Nat := 2

def DATA_DIR : String := "data"

/-! ## Records

A record is the JSON object for one market row: an open-ended mapping from
field name to string value (the API serves all fields as strings). -/

abbrev Record := List (String × String)

/-- Dictionary lookup `r.get(k)`: first binding for the key, if any. -/
def getStr (r : Record) (k : String) : Option String :=
  (r.find? (fun p => p.1 == k)).map (fun p => p.2)

/-! ## Resilient fetcher (`fetch_page`, source lines 50-94)

One HTTP attempt either times out, or yields a status code and a body.  The
body either fails JSON parsing (`r.json()` raises `ValueError`) or parses to
JSON that may or may not carry a `records` array (`data.get("records", [])`
defaults a missing key to the empty list). -/

inductive Body where
  | invalid
  | json (records : Option (List Record))
deriving Repr, DecidableEq

inductive Response where
  | timeout
  | ok (status : Nat) (body : Body)
deriving Repr, DecidableEq

/-- One attempt of the `try` block at source lines 70-83: `none` means the
attempt raised (`Timeout`, `RequestException` for a non-200 status, or
`ValueError` from JSON parsing) and was caught by the `except` arm. -/
def attemptFetch : Response → Option (List Record)
  | .timeout => none
  | .ok status body =>
    if status ≠ 200 then none
    else
      match body with
      | .invalid => none
      | .json recs => some (recs.getD [])

/-- `wait = BACKOFF_BASE ** attempt` (source line 86). -/
def backoffWait (attempt : Nat) : Nat := BACKOFF_BASE ^ attempt

/-- Result of `fetch_page`: the returned records, the sequence of backoff
sleeps performed, the number of HTTP requests issued, and whether the
function returned through the give-up path at source line 94. -/
structure FetchResult where
  records : List Record
  waits : List Nat
  attempts : Nat
  exhausted : Bool
deriving Repr, DecidableEq

/-- Bookkeeping for one failed attempt: record the sleep and the request. -/
def addRetry (w : Nat) (fr : FetchResult) : FetchResult :=
  { fr with waits := w :: fr.waits, attempts := fr.attempts + 1 }

/-- The retry loop of `fetch_page` (source lines 69-94): `resp` gives the
outcome of the HTTP attempt issued at each attempt number; `remaining`
counts the attempts left out of `MAX_RETRIES`. -/
def fetchFrom (resp : Nat → Response) : Nat → Nat → FetchResult
  | _, 0 => { records := [], waits := [], attempts := 0, exhausted := true }
  | attempt, remaining + 1 =>
    match attemptFetch (resp attempt) with
    | some recs => { records := recs, waits := [], attempts := 1, exhausted := false }
    | none => addRetry (backoffWait attempt) (fetchFrom resp (attempt + 1) remaining)

/-- `fetch_page`: attempts run from 1 up to `MAX_RETRIES`. -/
def fetch_page (resp : Nat → Response) : FetchResult :=
  fetchFrom resp 1 MAX_RETRIES

/-! ## Progress store (`load_progress` / `save_progress`, source lines 28-45)

The progress file is modelled by the outcome of reading and JSON-parsing it:
missing, blank (empty after `strip()`), malformed (raises `JSONDecodeError`),
or well-formed JSON.  `json.loads` itself is external; its possible results
are the `JVal` values. -/

inductive JVal where
  | jnull
  | jbool (b : Bool)
  | jnum (n : Int)
  | jstr (s : String)
  | jarr (elems : List JVal)
  | jobj (fields : List (String × JVal))

inductive FileContent where
  | missing
  | blank
  | malformed
  | wellFormed (j : JVal)

/-- The default state `{"completed_crops": []}` (source lines 30, 36, 40). -/
def defaultProgress : JVal := .jobj [("completed_crops", .jarr [])]

/-- `load_progress` (source lines 28-40): missing file, blank content, and a
`JSONDecodeError` all yield the default; any well-formed JSON value is
returned as parsed, with no shape validation. -/
def load_progress : FileContent → JVal
  | .missing => defaultProgress
  | .blank => defaultProgress
  | .malformed => defaultProgress
  | .wellFormed j => j

/-- Python `obj[k]` on the parsed JSON: `none` models a raised `KeyError`
(or a `TypeError` when the value is not a dict). -/
def getField : JVal → String → Option JVal
  | .jobj kvs, k => (kvs.find? (fun p => p.1 == k)).map (fun p => p.2)
  | _, _ => none

/-- The startup read `completed = set(progress["completed_crops"])` (source
line 109): succeeds with the array's elements when the loaded value has a
`completed_crops` array field, raises otherwise (`KeyError` on a missing
key, `TypeError` when iterating a non-sequence value). -/
def startupCompleted (fc : FileContent) : Option (List JVal) :=
  match getField (load_progress fc) "completed_crops" with
  | some (.jarr xs) => some xs
  | _ => none

/-! ## Per-crop pagination loop (source lines 120-127)

`pageAt offset` is the record list that `fetch_page(offset, filter)` returns
at each offset (the fetcher already absorbs retries into its result).  The
`while True` loop is embedded with explicit fuel: `running` means the fuel
ran out with the loop still going — the source loop has no other exit than
an empty page. -/

inductive PageLoopResult where
  | finished (rows : List Record) (offset : Nat) (issued : List Nat)
  | running (rows : List Record) (offset : Nat) (issued : List Nat)
deriving Repr, DecidableEq

def pageLoop (pageAt : Nat → List Record) : Nat → Nat → List Record → List Nat → PageLoopResult
  | 0, offset, rows, issued => .running rows offset issued
  | fuel + 1, offset, rows, issued =>
    if (pageAt offset).isEmpty then .finished rows offset (issued ++ [offset])
    else pageLoop pageAt fuel (offset + LIMIT) (rows ++ pageAt offset) (issued ++ [offset])

def isFinished : PageLoopResult → Bool
  | .finished _ _ _ => true
  | .running _ _ _ => false

def loopIssued : PageLoopResult → List Nat
  | .finished _ _ issued => issued
  | .running _ _ issued => issued

/-- Lines 120-131 of `process_crop`: run the pagination loop; when it
terminates with no rows at all the crop fails immediately (`return False`),
otherwise processing continues with the accumulated rows.  `none` means the
fuel bound was hit with the loop still running. -/
def cropPaginationOutcome (pageAt : Nat → List Record) (fuel : Nat) : Option (Bool × List Record) :=
  match pageLoop pageAt fuel 0 [] [] with
  | .running _ _ _ => none
  | .finished rows _ _ => if rows.isEmpty then some (false, rows) else some (true, rows)

/-! ## Dates and numeric parsing (source lines 136-150)

`pd.to_datetime(..., format="%d-%m-%Y", errors="coerce")` parses the fixed
day-month-year form strictly, validating the calendar (leap years included),
and coerces failures to `NaT`; `pd.to_numeric(..., errors="coerce")` parses
decimal numerals and coerces failures to `NaN`. -/

structure Date where
  year : Nat
  month : Nat
  day : Nat
deriving Repr, DecidableEq

/-- Order-embedding of a (validated) calendar date into `Nat`:
lexicographic on year, month, day since `month ≤ 12` and `day ≤ 31`. -/
def Date.key (d : Date) : Nat := d.year * 10000 + d.month * 100 + d.day

def isLeap (y : Nat) : Bool :=
  (y % 4 == 0 && y % 100 != 0) || y % 400 == 0

def daysInMonth (y m : Nat) : Nat :=
  if m = 2 then (if isLeap y then 29 else 28)
  else if m = 4 ∨ m = 6 ∨ m = 9 ∨ m = 11 then 30
  else 31

/-- Split a character list on a separator character. -/
def splitChar (sep : Char) : List Char → List Char → List (List Char)
  | [], acc => [acc.reverse]
  | c :: cs, acc =>
    if c = sep then acc.reverse :: splitChar sep cs []
    else splitChar sep cs (c :: acc)

/-- Value of a non-empty all-digit character list. -/
def digitsValAux : List Char → Nat → Option Nat
  | [], acc => some acc
  | c :: cs, acc =>
    if c.isDigit then digitsValAux cs (acc * 10 + (c.toNat - 48)) else none

def digitsVal : List Char → Option Nat
  | [] => none
  | cs => digitsValAux cs 0

/-- Strict `%d-%m-%Y` parsing with calendar validation; `none` models `NaT`. -/
def parseDate (s : String) : Option Date :=
  match splitChar '-' s.data [] with
  | [ds, ms, ys] =>
    match digitsVal ds, digitsVal ms, digitsVal ys with
    | some d, some m, some y =>
      if 1 ≤ m ∧ m ≤ 12 ∧ 1 ≤ d ∧ d ≤ daysInMonth y m then some ⟨y, m, d⟩ else none
    | _, _, _ => none
  | _ => none

/-- Unsigned decimal numeral (integer part, optional fraction) as a rational. -/
def parseUnsignedChars (cs : List Char) : Option Rat :=
  match splitChar '.' cs [] with
  | [a] => (digitsVal a).map (fun n => (n : Rat))
  | [a, b] =>
    match digitsVal a, digitsVal b with
    | some i, some f => some ((i : Rat) + (f : Rat) / ((10 : Rat) ^ b.length))
    | _, _ => none
  | _ => none

/-- Decimal numeral with optional sign; `none` models `NaN`. -/
def parseNumeric (s : String) : Option Rat :=
  match s.data with
  | '-' :: rest => (parseUnsignedChars rest).map (fun q => -q)
  | '+' :: rest => parseUnsignedChars rest
  | cs => parseUnsignedChars cs

/-! ## Cleaning and windowing (source lines 135-150) -/

/-- A row of the cleaned frame: the original record together with its parsed
date and price columns. -/
structure CleanRow where
  raw : Record
  date : Date
  price : Rat
deriving Repr, DecidableEq

/-- Column parsing plus `dropna(subset=["Arrival_Date", "Modal_Price"])`
(source lines 136-141): a row survives only when both parses succeed. -/
def parseRow (r : Record) : Option CleanRow :=
  match (getStr r "Arrival_Date").bind parseDate, (getStr r "Modal_Price").bind parseNumeric with
  | some d, some p => some { raw := r, date := d, price := p }
  | _, _ => none

/-- Lines 136-142: parse the two columns, drop unparseable rows, then keep
only strictly positive prices. -/
def cleanBase (batch : List Record) : List CleanRow :=
  (batch.filterMap parseRow).filter (fun row => decide (0 < row.price))

/-- `pd.DateOffset(years := n)` subtraction: same month, the day clamped to
the target month's length (only Feb 29 is ever clamped). -/
def subYears (d : Date) (n : Nat) : Date :=
  ⟨d.year - n, d.month, min d.day (daysInMonth (d.year - n) d.month)⟩

def maxD (a b : Date) : Date := if a.key ≤ b.key then b else a

/-- `df["Arrival_Date"].max()` over a list of dates. -/
def maxDateList : List Date → Option Date
  | [] => none
  | d :: ds => some (ds.foldl maxD d)

/-- Lines 136-150: full cleaning followed by the trailing three-year window
`df[df["Arrival_Date"] >= df["Arrival_Date"].max() - DateOffset(years=3)]`,
the cutoff anchored at the maximum date of the rows that survived the
date/price cleaning. -/
def cleanWindow (batch : List Record) : List CleanRow :=
  match maxDateList ((cleanBase batch).map (fun r => r.date)) with
  | none => []
  | some m => (cleanBase batch).filter (fun row => decide ((subYears m 3).key ≤ row.date.key))

/-- The claim's words, not the code: the maximum date observed anywhere in
the input batch, i.e. over every row whose date parses, including rows that
the price filter later drops. -/
def claimMaxObservedDate (batch : List Record) : Option Date :=
  maxDateList (batch.filterMap (fun r => (getStr r "Arrival_Date").bind parseDate))

/-! ## Filename normalization and output path (source lines 176-178) -/

/-- ASCII lowering, modelling `str.lower` on the commodity names. -/
def lowerChar (c : Char) : Char :=
  if 65 ≤ c.toNat ∧ c.toNat ≤ 90 then Char.ofNat (c.toNat + 32) else c

/-- `fname = crop.replace(" ", "_").lower()` (source line 177): each space
becomes an underscore, then the result is lowercased.  Nothing else — no
other whitespace and no punctuation is touched. -/
def normalizeCrop (crop : String) : String :=
  String.mk ((crop.data.map (fun c => if c = ' ' then '_' else c)).map lowerChar)

/-- The file path written at source line 178: `data/<fname>_ml.csv`. -/
def outPath (crop : String) : String :=
  DATA_DIR ++ "/" ++ normalizeCrop crop ++ "_ml.csv"

/-- Follows the claim's words only, for comparison with the code: lowercase
the name, replace whitespace by underscore, strip punctuation (characters
that are neither alphanumeric nor underscore). -/
def specNormalize (crop : String) : String :=
  String.mk (((crop.data.map lowerChar).map
    (fun c => if c.isWhitespace then '_' else c)).filter
    (fun c => c.isAlphanum || c = '_'))

/-- The path the claim describes: `<data dir>/<normalized name>.csv`. -/
def specPath (crop : String) : String :=
  DATA_DIR ++ "/" ++ specNormalize crop ++ ".csv"

/-! ## Commodity discovery (source lines 99-103) -/

def insertSorted (s : String) : List String → List String
  | [] => [s]
  | x :: xs => if s < x then s :: x :: xs else x :: insertSorted s xs

def sortStrings : List String → List String
  | [] => []
  | x :: xs => insertSorted x (sortStrings xs)

/-- `sorted({r.get("Commodity") for r in first_page if r.get("Commodity")})`:
the distinct, present, non-empty (truthiness) commodity values of the first
page, sorted. -/
def discoverCommodities (page : List Record) : List String :=
  sortStrings (((page.filterMap (fun r => getStr r "Commodity")).filter
    (fun s => !(s == ""))).dedup)

/-! ## Startup (source lines 10 and 99-103)

`API_KEY = os.getenv("DATA_GOV_API_KEY")` stores whatever the environment
holds — `None` included — and the module immediately proceeds to the
discovery fetch; no code path validates the credential or raises before it.
An `Except` result makes that observable: `.error` would model an uncaught
exception during startup, and no input produces one. -/

structure Params where
  apiKey : Option String
  limit : Nat
  offset : Nat
  filters : List (String × String)
deriving Repr, DecidableEq

/-- The query parameters built at source lines 58-67, carrying whatever
`API_KEY` holds. -/
def mkParams (apiKey : Option String) (offset : Nat) (filters : List (String × String)) : Params :=
  { apiKey := apiKey, limit := LIMIT, offset := offset, filters := filters }

/-- Module-level startup through discovery: read the environment variable
(line 10), issue the unfiltered page-0 fetch (line 100), derive the
commodity set (line 102).  Returns the discovery request's parameters, the
discovered commodities, and the number of HTTP requests issued. -/
def startupDiscovery (env : String → Option String) (resp : Nat → Response) :
    Except String (Params × List String × Nat) :=
  Except.ok
    (mkParams (env "DATA_GOV_API_KEY") 0 [],
     discoverCommodities (fetch_page resp).records,
     (fetch_page resp).attempts)

/-! ## Main loop (source lines 186-202)

`outcome crop` abstracts the success flag that `process_crop(crop)` returns;
on success `process_crop` has already written the crop's file at `outPath
crop` (source line 178) before returning `True`. -/

structure LoopState where
  completedList : List String
  persisted : List String
  saves : List (List String)
  processed : List String
  filesWritten : List String
deriving Repr, DecidableEq

/-- `save_progress` (source lines 43-45): overwrite the persisted
representation wholesale with the in-memory list. -/
def save_progress (st : LoopState) (p : List String) : LoopState :=
  { st with persisted := p, saves := st.saves ++ [p] }

/-- One iteration of the main loop (source lines 186-200).  `completed0` is
the `completed` set built once at startup (line 109); it is never updated
inside the loop.  On success the crop is appended to
`progress["completed_crops"]` and `save_progress` runs; on failure nothing
is recorded or persisted. -/
def mainStep (outcome : String → Bool) (completed0 : List String)
    (st : LoopState) (crop : String) : LoopState :=
  if crop ∈ completed0 then st
  else
    let st1 := { st with processed := st.processed ++ [crop],
                         filesWritten :=
                           if outcome crop then st.filesWritten ++ [outPath crop]
                           else st.filesWritten }
    if outcome crop then
      save_progress { st1 with completedList := st1.completedList ++ [crop] }
        (st1.completedList ++ [crop])
    else st1

def initState (p0 : List String) : LoopState :=
  { completedList := p0, persisted := p0, saves := [], processed := [], filesWritten := [] }

/-- The whole `for crop in commodities` loop, started from persisted
progress `p0` (the `completed` set and the in-memory list both come from
it, source lines 108-109). -/
def mainLoop (outcome : String → Bool) (commodities : List String) (p0 : List String) : LoopState :=
  commodities.foldl (mainStep outcome p0) (initState p0)

/-- Discovery followed by the main loop (source lines 99-202). -/
def runPipeline (firstPage : List Record) (outcome : String → Bool) (p0 : List String) : LoopState :=
  mainLoop outcome (discoverCommodities firstPage) p0

/-! ## Concrete inputs used by witnesses and counterexamples -/

def rowBadPrice : Record :=
  [("Commodity", "Wheat"), ("Arrival_Date", "01-01-2024"), ("Modal_Price", "abc"), ("Market", "Pune")]

def rowOld : Record :=
  [("Commodity", "Wheat"), ("Arrival_Date", "01-06-2020"), ("Modal_Price", "100"), ("Market", "Pune")]

def batch0 : List Record := [rowBadPrice, rowOld]

/-- An endless data source: every offset serves a non-empty page. -/
def constPages : Nat → List Record := fun _ => [rowOld]

/-- A data source that is empty from the first page on. -/
def emptyPages : Nat → List Record := fun _ => []

/-- A `process_crop` outcome oracle under which every crop fails. -/
def alwaysFail : String → Bool := fun _ => false

/-- An environment with no variables set. -/
def envEmpty : String → Option String := fun _ => none

/-- Every attempt of one request times out. -/
def allTimeout : Nat → Response := fun _ => .timeout

/-- Every attempt of every offset's request times out. -/
def allTimeoutAt : Nat → Nat → Response := fun _ _ => .timeout

def cursorShapeFile : FileContent := .wellFormed (.jobj [("last_offset", .jnum 5000)])

/-! ## Helper lemmas -/

theorem fetch_page_attempts_pos (resp : Nat → Response) :
    1 ≤ (fetch_page resp).attempts := by
  unfold fetch_page MAX_RETRIES fetchFrom
  cases attemptFetch (resp 1) <;> simp [addRetry]

theorem fetchFrom_fail_step (resp : Nat → Response) (attempt rem : Nat)
    (h : attemptFetch (resp attempt) = none) :
    fetchFrom resp attempt (rem + 1) =
      addRetry (backoffWait attempt) (fetchFrom resp (attempt + 1) rem) := by
  simp [fetchFrom, h]

theorem fetchFrom_all_fail (resp : Nat → Response) :
    ∀ (rem attempt : Nat), (∀ k, attempt ≤ k → k < attempt + rem → attemptFetch (resp k) = none) →
      fetchFrom resp attempt rem =
        { records := [], waits := (List.range rem).map (fun i => backoffWait (attempt + i)),
          attempts := rem, exhausted := true } := by
  intro rem
  induction rem with
  | zero => intro attempt _; rfl
  | succ r ih =>
    intro attempt h
    rw [fetchFrom_fail_step resp attempt r (h attempt (le_refl attempt) (by omega))]
    rw [ih (attempt + 1) (fun k hk1 hk2 => h k (by omega) (by omega))]
    simp [addRetry, List.range_succ_eq_map, Function.comp]
    intro a _
    congr 1
    omega

theorem pageLoop_finished_of_empty (pageAt : Nat → List Record) :
    ∀ (n fuel start : Nat) (rows : List Record) (issued : List Nat),
      pageAt (start + LIMIT * n) = [] → n < fuel →
      isFinished (pageLoop pageAt fuel start rows issued) = true := by
  intro n
  induction n with
  | zero =>
    intro fuel start rows issued hEmpty hFuel
    obtain ⟨f, rfl⟩ : ∃ f, fuel = f + 1 := ⟨fuel - 1, by omega⟩
    simp only [Nat.mul_zero, Nat.add_zero] at hEmpty
    simp [pageLoop, hEmpty, isFinished]
  | succ m ih =>
    intro fuel start rows issued hEmpty hFuel
    obtain ⟨f, rfl⟩ : ∃ f, fuel = f + 1 := ⟨fuel - 1, by omega⟩
    by_cases hstart : (pageAt start).isEmpty
    · simp [pageLoop, hstart, isFinished]
    · rw [pageLoop]
      rw [if_neg hstart]
      exact ih f (start + LIMIT) (rows ++ pageAt start) (issued ++ [start])
        (by rw [show start + LIMIT + LIMIT * m = start + LIMIT * (m + 1) by ring]; exact hEmpty)
        (by omega)

theorem pageLoop_finished_offset (pageAt : Nat → List Record) :
    ∀ (fuel start : Nat) (rows : List Record) (issued : List Nat)
      (rows2 : List Record) (off : Nat) (issued2 : List Nat),
      pageLoop pageAt fuel start rows issued = .finished rows2 off issued2 →
      pageAt off = [] := by
  intro fuel
  induction fuel with
  | zero => intro start rows issued rows2 off issued2 h; simp [pageLoop] at h
  | succ f ih =>
    intro start rows issued rows2 off issued2 h
    rw [pageLoop] at h
    by_cases hstart : (pageAt start).isEmpty
    · rw [if_pos hstart] at h
      cases h
      exact List.isEmpty_iff.mp hstart
    · rw [if_neg hstart] at h
      exact ih _ _ _ _ _ _ h

theorem key_le_foldl_maxD (ds : List Date) :
    ∀ (d : Date), d.key ≤ (ds.foldl maxD d).key := by
  induction ds with
  | nil => intro d; exact le_refl _
  | cons x xs ih =>
    intro d
    refine le_trans ?_ (ih (maxD d x))
    unfold maxD
    by_cases h : d.key ≤ x.key
    · rw [if_pos h]; exact h
    · rw [if_neg h]

theorem mem_key_le_foldl_maxD (ds : List Date) :
    ∀ (d x : Date), x ∈ ds → x.key ≤ (ds.foldl maxD d).key := by
  induction ds with
  | nil => intro d x hx; cases hx
  | cons y ys ih =>
    intro d x hx
    rcases List.mem_cons.mp hx with rfl | hmem
    · refine le_trans ?_ (key_le_foldl_maxD ys (maxD d x))
      unfold maxD
      by_cases h : d.key ≤ x.key
      · rw [if_pos h]
      · rw [if_neg h]; omega
    · exact ih (maxD d y) x hmem

theorem maxDateList_ge_mem (l : List Date) (m : Date) (h : maxDateList l = some m) :
    ∀ x ∈ l, x.key ≤ m.key := by
  cases l with
  | nil => simp [maxDateList] at h
  | cons d ds =>
    unfold maxDateList at h
    cases h
    intro x hx
    rcases List.mem_cons.mp hx with rfl | hmem
    · exact key_le_foldl_maxD ds x
    · exact mem_key_le_foldl_maxD ds d x hmem

theorem parseRow_fields (r : Record) (row : CleanRow) (h : parseRow r = some row) :
    row.raw = r ∧
    (getStr r "Arrival_Date").bind parseDate = some row.date ∧
    (getStr r "Modal_Price").bind parseNumeric = some row.price := by
  unfold parseRow at h
  cases hd : (getStr r "Arrival_Date").bind parseDate with
  | none => rw [hd] at h; simp at h
  | some d =>
    cases hp : (getStr r "Modal_Price").bind parseNumeric with
    | none => rw [hd, hp] at h; simp at h
    | some p =>
      rw [hd, hp] at h
      simp at h
      subst h
      exact ⟨rfl, rfl, rfl⟩

/-! ## Claim C1 — progress shape tolerance -/

/-- C1 counterexample: a progress file holding the cursor shape
`{"last_offset": 5000}` is valid JSON, so `load_progress` returns it
unchanged instead of the documented default, and the startup read
`set(progress["completed_crops"])` then raises `KeyError` instead of
succeeding. -/
theorem c1_cursor_shape_counterexample :
    load_progress cursorShapeFile ≠ defaultProgress ∧
    startupCompleted cursorShapeFile = none := by
  constructor
  · simp [cursorShapeFile, load_progress, defaultProgress]
  · rfl

/-- C1 (amended): `load_progress` never raises and yields the default fresh
state on a missing, empty, or syntactically invalid file, and the startup
read of the completed-crops set succeeds on those; but a well-formed JSON
value of any other shape is returned unchanged — when it lacks a
`completed_crops` array the subsequent startup read raises. -/
theorem c1_progress_shape_tolerance_amended (j : JVal)
    (h : getField j "completed_crops" = none) :
    load_progress .missing = defaultProgress ∧
    load_progress .blank = defaultProgress ∧
    load_progress .malformed = defaultProgress ∧
    startupCompleted .missing = some [] ∧
    startupCompleted .blank = some [] ∧
    startupCompleted .malformed = some [] ∧
    load_progress (.wellFormed j) = j ∧
    startupCompleted (.wellFormed j) = none := by
  refine ⟨rfl, rfl, rfl, rfl, rfl, rfl, rfl, ?_⟩
  simp [startupCompleted, load_progress, h]

/-- C1 amended, instantiated at the cursor-shape file. -/
theorem c1_amended_witness :
    load_progress .missing = defaultProgress ∧
    load_progress .blank = defaultProgress ∧
    load_progress .malformed = defaultProgress ∧
    startupCompleted .missing = some [] ∧
    startupCompleted .blank = some [] ∧
    startupCompleted .malformed = some [] ∧
    load_progress (.wellFormed (.jobj [("last_offset", .jnum 5000)])) =
      .jobj [("last_offset", .jnum 5000)] ∧
    startupCompleted (.wellFormed (.jobj [("last_offset", .jnum 5000)])) = none :=
  c1_progress_shape_tolerance_amended (.jobj [("last_offset", .jnum 5000)]) rfl

/-! ## Claim C2 — terminal states and persistence -/

/-- C2 counterexample: a crop whose processing fails is recorded nowhere
(the script keeps no attempted set and saves nothing on failure), so a
fresh run resumed from the persisted progress retries it. -/
theorem c2_failed_crop_retried_counterexample :
    (mainLoop alwaysFail ["Wheat"] []).saves = [] ∧
    (mainLoop alwaysFail ["Wheat"] []).persisted = [] ∧
    "Wheat" ∈ (mainLoop alwaysFail ["Wheat"]
      (mainLoop alwaysFail ["Wheat"] []).persisted).processed := by decide

/-- C2 (amended): after an entity reaches a terminal state, only success is
recorded — the crop is appended to `completed_crops` and progress is
persisted immediately; on failure nothing is recorded or persisted, and the
entity is retried in a future resumed run. -/
theorem c2_terminal_state_persistence_amended (outcome futureOutcome : String → Bool)
    (p0 : List String) (crop : String) (h : crop ∉ p0) :
    (outcome crop = true →
      (mainLoop outcome [crop] p0).completedList = p0 ++ [crop] ∧
      (mainLoop outcome [crop] p0).persisted = p0 ++ [crop] ∧
      (mainLoop outcome [crop] p0).saves = [p0 ++ [crop]]) ∧
    (outcome crop = false →
      (mainLoop outcome [crop] p0).completedList = p0 ∧
      (mainLoop outcome [crop] p0).persisted = p0 ∧
      (mainLoop outcome [crop] p0).saves = [] ∧
      crop ∈ (mainLoop futureOutcome [crop]
        (mainLoop outcome [crop] p0).persisted).processed) := by
  constructor <;> intro hoc <;>
    simp [mainLoop, mainStep, initState, save_progress, h, hoc] <;>
    split <;> simp

/-- C2 amended, instantiated: the failed crop "Wheat" is not persisted and a
resumed run processes it again. -/
theorem c2_amended_witness :
    (alwaysFail "Wheat" = true →
      (mainLoop alwaysFail ["Wheat"] []).completedList = [] ++ ["Wheat"] ∧
      (mainLoop alwaysFail ["Wheat"] []).persisted = [] ++ ["Wheat"] ∧
      (mainLoop alwaysFail ["Wheat"] []).saves = [[] ++ ["Wheat"]]) ∧
    (alwaysFail "Wheat" = false →
      (mainLoop alwaysFail ["Wheat"] []).completedList = [] ∧
      (mainLoop alwaysFail ["Wheat"] []).persisted = [] ∧
      (mainLoop alwaysFail ["Wheat"] []).saves = [] ∧
      "Wheat" ∈ (mainLoop alwaysFail ["Wheat"]
        (mainLoop alwaysFail ["Wheat"] []).persisted).processed) :=
  c2_terminal_state_persistence_amended alwaysFail alwaysFail [] "Wheat" (by simp)

/-! ## Claim C3 — missing credential at startup -/

/-- C3 counterexample: with no credential in the environment the module
does not raise — startup returns normally, the discovery request is built
with a `None` key, and five HTTP requests are issued (all timing out here)
before discovery degrades to an empty commodity set. -/
theorem c3_no_credential_check_counterexample :
    startupDiscovery envEmpty allTimeout =
      .ok ({ apiKey := none, limit := 1000, offset := 0, filters := [] }, [], 5) ∧
    (fetch_page allTimeout).attempts = 5 :=
  ⟨rfl, rfl⟩

/-- C3 (amended): the script performs no credential check: for every
environment, startup returns normally (never raises), the discovery request
carries whatever `os.getenv` returned — `None` included — and at least one
network request is always issued before anything else can fail. -/
theorem c3_startup_never_raises_amended (env : String → Option String) (resp : Nat → Response) :
    startupDiscovery env resp =
      .ok (mkParams (env "DATA_GOV_API_KEY") 0 [],
           discoverCommodities (fetch_page resp).records,
           (fetch_page resp).attempts) ∧
    1 ≤ (fetch_page resp).attempts :=
  ⟨rfl, fetch_page_attempts_pos resp⟩

/-! ## Claim C4 — pagination termination and offset ceiling -/

/-- C4 counterexample: no offset ceiling exists.  With every page non-empty
the loop is still running after 101 pages, having issued a request at
offset 100000 — so offset + page size reaches 101000, beyond a 100000-row
cap (or any other putative configured ceiling it runs past). -/
theorem c4_no_offset_ceiling_counterexample :
    (100000 : Nat) ∈ loopIssued (pageLoop constPages 101 0 [] []) ∧
    100000 + LIMIT > 100000 ∧
    isFinished (pageLoop constPages 101 0 [] []) = false := by decide

/-- C4 (amended): the inner loop pages from offset 0 upward and stops
exactly when a fetched page is empty — that is its only exit: given an
empty page within the fuel bound it terminates, and any terminal offset has
an empty page.  No per-entity offset ceiling exists. -/
theorem c4_stops_only_on_empty_page_amended (pageAt : Nat → List Record)
    (n fuel : Nat) (hEmpty : pageAt (LIMIT * n) = []) (hFuel : n < fuel) :
    isFinished (pageLoop pageAt fuel 0 [] []) = true ∧
    (∀ rows off issued, pageLoop pageAt fuel 0 [] [] = .finished rows off issued →
      pageAt off = []) := by
  constructor
  · exact pageLoop_finished_of_empty pageAt n fuel 0 [] [] (by simpa using hEmpty) hFuel
  · intro rows off issued hfin
    exact pageLoop_finished_offset pageAt fuel 0 [] [] rows off issued hfin

/-- C4 amended, instantiated on an immediately-empty source. -/
theorem c4_amended_witness :
    isFinished (pageLoop emptyPages 1 0 [] []) = true ∧
    (∀ rows off issued, pageLoop emptyPages 1 0 [] [] = .finished rows off issued →
      emptyPages off = []) :=
  c4_stops_only_on_empty_page_amended emptyPages 0 1 rfl Nat.zero_lt_one

/-! ## Claim C5 — failure classification of responses -/

/-- C5 counterexample: a 200 response whose JSON body lacks a `records`
array — a body that fails to parse as the expected structure — is not
retried at all: the very first attempt returns it as a successful empty
result, with no backoff sleep and no further request. -/
theorem c5_missing_records_array_counterexample :
    attemptFetch (.ok 200 (.json none)) = some [] ∧
    fetch_page (fun _ => .ok 200 (.json none)) =
      { records := [], waits := [], attempts := 1, exhausted := false } := by decide

/-- C5 (amended): a timeout, a non-200 status, and a body that is not valid
JSON are classified identically — each makes the attempt fail, consuming
one retry with a backoff sleep of `backoffWait attempt`; but a 200 response
with valid JSON is a success even when the `records` array is absent, in
which case it yields the empty list. -/
theorem c5_transient_failure_classes_amended (status : Nat) (b : Body)
    (recs : Option (List Record)) (resp : Nat → Response) (attempt rem : Nat)
    (hs : status ≠ 200) (hfail : attemptFetch (resp attempt) = none) :
    attemptFetch .timeout = none ∧
    attemptFetch (.ok status b) = none ∧
    attemptFetch (.ok 200 .invalid) = none ∧
    attemptFetch (.ok 200 (.json recs)) = some (recs.getD []) ∧
    fetchFrom resp attempt (rem + 1) =
      addRetry (backoffWait attempt) (fetchFrom resp (attempt + 1) rem) := by
  refine ⟨rfl, ?_, rfl, rfl, fetchFrom_fail_step resp attempt rem hfail⟩
  simp [attemptFetch, hs]

/-- C5 amended, instantiated at a 500 status and an all-timeout request. -/
theorem c5_amended_witness :
    attemptFetch .timeout = none ∧
    attemptFetch (.ok 500 .invalid) = none ∧
    attemptFetch (.ok 200 .invalid) = none ∧
    attemptFetch (.ok 200 (.json none)) = some [] ∧
    fetchFrom allTimeout 1 (4 + 1) =
      addRetry (backoffWait 1) (fetchFrom allTimeout 2 4) :=
  c5_transient_failure_classes_amended 500 .invalid none allTimeout 1 4 (by decide) rfl

/-! ## Claim C6 — graceful degradation on exhausted retries -/

/-- C6: when every attempt of the page-0 request fails, `fetch_page`
returns the empty list (with the five backoff sleeps) instead of raising,
and the per-crop loop then breaks at that offset: it terminates, and the
crop reaches the terminal failure outcome of source lines 129-131 rather
than aborting the run or looping forever. -/
theorem c6_exhausted_retries_graceful (respAt : Nat → Nat → Response) (fuel : Nat)
    (hall : ∀ k, 1 ≤ k → k ≤ MAX_RETRIES → attemptFetch (respAt 0 k) = none)
    (hfuel : 1 ≤ fuel) :
    fetch_page (respAt 0) =
      { records := [],
        waits := [backoffWait 1, backoffWait 2, backoffWait 3, backoffWait 4, backoffWait 5],
        attempts := 5, exhausted := true } ∧
    isFinished (pageLoop (fun o => (fetch_page (respAt o)).records) fuel 0 [] []) = true ∧
    cropPaginationOutcome (fun o => (fetch_page (respAt o)).records) fuel = some (false, []) := by
  have hfp : fetch_page (respAt 0) =
      { records := [],
        waits := [backoffWait 1, backoffWait 2, backoffWait 3, backoffWait 4, backoffWait 5],
        attempts := 5, exhausted := true } := by
    unfold fetch_page MAX_RETRIES
    rw [fetchFrom_all_fail (respAt 0) 5 1 (fun k hk1 hk2 => hall k hk1 (by
      unfold MAX_RETRIES; omega))]
    rfl
  obtain ⟨f, rfl⟩ : ∃ f, fuel = f + 1 := ⟨fuel - 1, by omega⟩
  refine ⟨hfp, ?_, ?_⟩
  · simp [pageLoop, hfp, isFinished]
  · simp [cropPaginationOutcome, pageLoop, hfp]

/-- C6, instantiated on a request that times out on all five attempts. -/
theorem c6_witness :
    fetch_page (allTimeoutAt 0) =
      { records := [],
        waits := [backoffWait 1, backoffWait 2, backoffWait 3, backoffWait 4, backoffWait 5],
        attempts := 5, exhausted := true } ∧
    isFinished (pageLoop (fun o => (fetch_page (allTimeoutAt o)).records) 1 0 [] []) = true ∧
    cropPaginationOutcome (fun o => (fetch_page (allTimeoutAt o)).records) 1 =
      some (false, []) :=
  c6_exhausted_retries_graceful allTimeoutAt 1 (fun k _ _ => rfl) (le_refl 1)

/-! ## Claim C7 — cleaning and windowing -/

/-- C7 counterexample: the code anchors the three-year window at the
maximum date of the rows that survive the price filter, not at the maximum
date observed in the batch.  In `batch0` the 2024 row's price is
unparseable, so the cleaned output keeps the 2020 row even though it lies
outside the claim's window `[2024-01-01 minus 3 years, 2024-01-01]`. -/
theorem c7_window_anchor_counterexample :
    claimMaxObservedDate batch0 = some ⟨2024, 1, 1⟩ ∧
    (cleanWindow batch0).map (fun r => r.date) = [⟨2020, 6, 1⟩] ∧
    (Date.key ⟨2020, 6, 1⟩) < (subYears ⟨2024, 1, 1⟩ 3).key := by decide

/-- C7 (amended): every row the transform returns comes from the batch,
has a successfully parsed `Arrival_Date` and `Modal_Price`, a price
strictly greater than 0, and a date within `[m minus 3 calendar years, m]`
where `m` is the maximum date among the rows that survived date/price
validation (not the maximum observed in the raw batch). -/
theorem c7_clean_window_amended (batch : List Record) (row : CleanRow)
    (h : row ∈ cleanWindow batch) :
    row.raw ∈ batch ∧
    (getStr row.raw "Arrival_Date").bind parseDate = some row.date ∧
    (getStr row.raw "Modal_Price").bind parseNumeric = some row.price ∧
    0 < row.price ∧
    (∃ m, maxDateList ((cleanBase batch).map (fun r => r.date)) = some m ∧
      (subYears m 3).key ≤ row.date.key ∧ row.date.key ≤ m.key) := by
  unfold cleanWindow at h
  cases hm : maxDateList ((cleanBase batch).map (fun r => r.date)) with
  | none => rw [hm] at h; simp at h
  | some m =>
    rw [hm] at h
    obtain ⟨hbase, hcut⟩ := List.mem_filter.mp h
    obtain ⟨hfm, hpos⟩ := List.mem_filter.mp hbase
    obtain ⟨r, hr, hpr⟩ := List.mem_filterMap.mp hfm
    obtain ⟨hraw, hdate, hprice⟩ := parseRow_fields r row hpr
    subst hraw
    refine ⟨hr, hdate, hprice, ?_, ⟨m, rfl, ?_, ?_⟩⟩
    · simpa using hpos
    · simpa using hcut
    · exact maxDateList_ge_mem _ m hm row.date (List.mem_map.mpr ⟨row, hbase, rfl⟩)

/-- C7 amended, instantiated on the single-row batch `[rowOld]`. -/
theorem c7_amended_witness :
    rowOld ∈ [rowOld] ∧
    (getStr rowOld "Arrival_Date").bind parseDate = some (⟨2020, 6, 1⟩ : Date) ∧
    (getStr rowOld "Modal_Price").bind parseNumeric = some (100 : Rat) ∧
    (0 : Rat) < 100 ∧
    (∃ m, maxDateList ((cleanBase [rowOld]).map (fun r => r.date)) = some m ∧
      (subYears m 3).key ≤ (Date.key ⟨2020, 6, 1⟩) ∧ (Date.key ⟨2020, 6, 1⟩) ≤ m.key) :=
  c7_clean_window_amended [rowOld] ⟨rowOld, ⟨2020, 6, 1⟩, 100⟩ (by decide)

/-! ## Claim C8 — exponential backoff growth -/

/-- C8: the wait before retry attempt `k` is `BACKOFF_BASE ^ k` seconds,
and it is strictly increasing in `k` across the retry budget. -/
theorem c8_backoff_strictly_increasing (j k : Nat) (h1 : 1 ≤ j) (h2 : j < k)
    (h3 : k ≤ MAX_RETRIES) :
    backoffWait j = BACKOFF_BASE ^ j ∧ backoffWait j < backoffWait k := by
  refine ⟨rfl, ?_⟩
  unfold backoffWait BACKOFF_BASE
  exact Nat.pow_lt_pow_right (by norm_num) h2

/-- C8, instantiated at attempts 1 and 2. -/
theorem c8_witness : backoffWait 1 = BACKOFF_BASE ^ 1 ∧ backoffWait 1 < backoffWait 2 :=
  c8_backoff_strictly_increasing 1 2 (le_refl 1) (by decide) (by decide)

/-! ## Claim C9 — output path and name normalization -/

/-- C9 counterexample: the file is written at `data/<n>_ml.csv`, not
`data/<n>.csv`, and the normalization only replaces spaces and lowercases —
punctuation survives, as `Gram (Whole)` shows. -/
theorem c9_path_shape_counterexample :
    outPath "Gram (Whole)" = "data/gram_(whole)_ml.csv" ∧
    specPath "Gram (Whole)" = "data/gram_whole.csv" ∧
    outPath "Gram (Whole)" ≠ specPath "Gram (Whole)" ∧
    outPath "Wheat" ≠ specPath "Wheat" := by decide

/-- C9 (amended): the output path is `<data dir>/<n>_ml.csv` where `n` is
the crop name with each space replaced by an underscore and then
lowercased (punctuation and other whitespace are preserved); the
normalization is a pure function, so the same input always yields the same
path and two raw names with the same normalization share one entity file. -/
theorem c9_normalized_path_amended (a b : String) (h : normalizeCrop a = normalizeCrop b) :
    outPath a = outPath b ∧
    outPath a = DATA_DIR ++ "/" ++ normalizeCrop a ++ "_ml.csv" :=
  ⟨by unfold outPath; rw [h], rfl⟩

/-- C9 amended, instantiated on two spellings that normalize identically. -/
theorem c9_amended_witness :
    outPath "Masur Dal" = outPath "MASUR DAL" ∧
    outPath "Masur Dal" = DATA_DIR ++ "/" ++ normalizeCrop "Masur Dal" ++ "_ml.csv" :=
  c9_normalized_path_amended "Masur Dal" "MASUR DAL" (by decide)

/-! ## Claim C10 — empty discovery page -/

/-- C10: when the unfiltered discovery fetch of page 0 yields no records —
including a fetch that exhausted its retries — the commodity set is empty,
the run processes no entity, writes no file, never saves progress (the
persisted state is untouched), and the loop terminates normally in its
initial state. -/
theorem c10_empty_discovery_noop (firstPage : List Record) (outcome : String → Bool)
    (p0 : List String) (h : firstPage = []) :
    discoverCommodities firstPage = [] ∧
    runPipeline firstPage outcome p0 = initState p0 ∧
    (runPipeline firstPage outcome p0).processed = [] ∧
    (runPipeline firstPage outcome p0).filesWritten = [] ∧
    (runPipeline firstPage outcome p0).saves = [] ∧
    (runPipeline firstPage outcome p0).persisted = p0 := by
  subst h
  exact ⟨rfl, rfl, rfl, rfl, rfl, rfl⟩

/-- C10, instantiated on an empty first page and non-trivial prior state. -/
theorem c10_witness :
    discoverCommodities [] = [] ∧
    runPipeline [] alwaysFail ["wheat"] = initState ["wheat"] ∧
    (runPipeline [] alwaysFail ["wheat"]).processed = [] ∧
    (runPipeline [] alwaysFail ["wheat"]).filesWritten = [] ∧
    (runPipeline [] alwaysFail ["wheat"]).saves = [] ∧
    (runPipeline [] alwaysFail ["wheat"]).persisted = ["wheat"] :=
  c10_empty_discovery_noop [] alwaysFail ["wheat"] rfl
